import Mathlib

/-
Verification of the `Size` and `CDataModel` core of the target-lexicon
repository (src/data_model.rs), shallowly embedded in Lean 4.

Both Rust types are fieldless enums; their accessors are pure total
pattern matches, embedded here as Lean inductive types and functions
translated branch by branch from the source.
-/

namespace TargetLexicon

/-- The size of a type (embeds Rust `enum Size` from src/data_model.rs). -/
inductive Size where
  | U8
  | U16
  | U32
  | U64
  deriving DecidableEq, Repr, Fintype

/-- Embeds `Size::bits` : the number of bits this `Size` represents.
The Rust function returns `u8`; all results fit, so `Nat` is faithful. -/
def Size.bits : Size → Nat
  | .U8 => 8
  | .U16 => 16
  | .U32 => 32
  | .U64 => 64

/-- Embeds `Size::bytes` : the number of bytes in a size (a byte is 8 bits). -/
def Size.bytes : Size → Nat
  | .U8 => 1
  | .U16 => 2
  | .U32 => 4
  | .U64 => 8

/-- The C data model used on a target (embeds Rust `enum CDataModel`).
The five variants are LP32, ILP32, LLP64, LP64, ILP64. -/
inductive CDataModel where
  | LP32
  | ILP32
  | LLP64
  | LP64
  | ILP64
  deriving DecidableEq, Repr

/-- Embeds `CDataModel::pointer_width` : the width of a pointer. -/
def CDataModel.pointer_width : CDataModel → Size
  | .LP32 | .ILP32 => .U32
  | .LLP64 | .LP64 | .ILP64 => .U64

/-- Embeds `CDataModel::short_size` : the size of a C `short`. -/
def CDataModel.short_size : CDataModel → Size
  | .LP32 | .ILP32 | .LLP64 | .LP64 | .ILP64 => .U16

/-- Embeds `CDataModel::int_size` : the size of a C `int`.
Note the source places `ILP64` in the `U32` branch. -/
def CDataModel.int_size : CDataModel → Size
  | .LP32 => .U16
  | .ILP32 | .LLP64 | .LP64 | .ILP64 => .U32

/-- Embeds `CDataModel::long_size` : the size of a C `long`.
Note the source places `ILP64` in the `U32` branch. -/
def CDataModel.long_size : CDataModel → Size
  | .LP32 | .ILP32 | .LLP64 | .ILP64 => .U32
  | .LP64 => .U64

/-- Embeds `CDataModel::long_long_size` : the size of a C `long long`. -/
def CDataModel.long_long_size : CDataModel → Size
  | .LP32 | .ILP32 | .LLP64 | .ILP64 | .LP64 => .U64

/-- Embeds `CDataModel::float_size` : the size of a C `float` (constant). -/
def CDataModel.float_size : CDataModel → Size
  | _ => .U32

/-- Embeds `CDataModel::double_size` : the size of a C `double` (constant). -/
def CDataModel.double_size : CDataModel → Size
  | _ => .U64

/-- The tuple of all seven accessor results of a data model, in the order
(pointer, short, int, long, long long, float, double). -/
def CDataModel.sizeTuple (m : CDataModel) :
    Size × Size × Size × Size × Size × Size × Size :=
  (m.pointer_width, m.short_size, m.int_size, m.long_size,
   m.long_long_size, m.float_size, m.double_size)

/-- Modelled from the spec: the section-3 invariant table of bit widths, in
the order (pointer, short, int, long, long long, float, double). This is
the specification-side decision table, written from the spec and not from
the source, to be compared against the source-embedded accessors. -/
def specTableBits : CDataModel → Nat × Nat × Nat × Nat × Nat × Nat × Nat
  | .LP32 => (32, 16, 16, 32, 64, 32, 64)
  | .ILP32 => (32, 16, 32, 32, 64, 32, 64)
  | .LLP64 => (64, 16, 32, 32, 64, 32, 64)
  | .LP64 => (64, 16, 32, 64, 64, 32, 64)
  | .ILP64 => (64, 16, 64, 64, 64, 32, 64)

/-- The tuple of all seven accessor results of a data model, as bit widths,
in the same order as `specTableBits`. -/
def CDataModel.codeTableBits (m : CDataModel) :
    Nat × Nat × Nat × Nat × Nat × Nat × Nat :=
  (m.pointer_width.bits, m.short_size.bits, m.int_size.bits, m.long_size.bits,
   m.long_long_size.bits, m.float_size.bits, m.double_size.bits)

/-- C1: the code contradicts the spec table (and its own documentation of
the ILP64 variant, which states that `int`, `long`, and pointer are all 64
bits) at the ILP64 data model: `int_size` and `long_size` both return
`Size::U32` there, where the spec's section-3 table requires 64 bits, so
the code's tuple of bit widths differs from the spec table at ILP64. -/
theorem c1_ilp64_code_bug :
    CDataModel.ILP64.int_size = Size.U32 ∧
    CDataModel.ILP64.long_size = Size.U32 ∧
    CDataModel.codeTableBits CDataModel.ILP64 ≠ specTableBits CDataModel.ILP64 ∧
    CDataModel.ILP64.int_size ≠ Size.U64 ∧
    CDataModel.ILP64.long_size ≠ Size.U64 := by
  refine ⟨rfl, rfl, ?_, ?_, ?_⟩ <;> decide

/-- C2: for every `Size` variant, `bytes * 8 = bits`, equivalently
`bytes = bits / 8` with `bits % 8 = 0`, and `bits` is exactly 8, 16, 32
or 64 on the respective variant. -/
theorem size_bits_bytes_relation :
    (∀ s : Size, s.bytes * 8 = s.bits ∧ s.bytes = s.bits / 8 ∧ s.bits % 8 = 0) ∧
    Size.U8.bits = 8 ∧ Size.U16.bits = 16 ∧ Size.U32.bits = 32 ∧
    Size.U64.bits = 64 := by
  decide

/-- C3: for every `CDataModel` variant, the bit widths are ordered
`short ≤ int ≤ long ≤ long long`. -/
theorem sizes_monotone (m : CDataModel) :
    m.short_size.bits ≤ m.int_size.bits ∧
    m.int_size.bits ≤ m.long_size.bits ∧
    m.long_size.bits ≤ m.long_long_size.bits := by
  cases m <;> decide

/-- C4: for every `CDataModel` variant, the C minimum-width constraints
hold: `short ≥ 16` bits, `long ≥ 32` bits, `long long ≥ 64` bits. -/
theorem sizes_minimum_widths (m : CDataModel) :
    16 ≤ m.short_size.bits ∧ 32 ≤ m.long_size.bits ∧
    64 ≤ m.long_long_size.bits := by
  cases m <;> decide

/-- C5: for every `CDataModel` variant, `pointer_width` is `U32` or `U64`;
it is `U32` exactly for LP32 and ILP32 and `U64` exactly for LLP64, LP64
and ILP64. -/
theorem pointer_width_grouping (m : CDataModel) :
    (m.pointer_width = Size.U32 ∨ m.pointer_width = Size.U64) ∧
    (m.pointer_width = Size.U32 ↔ (m = .LP32 ∨ m = .ILP32)) ∧
    (m.pointer_width = Size.U64 ↔ (m = .LLP64 ∨ m = .LP64 ∨ m = .ILP64)) := by
  cases m <;> simp [CDataModel.pointer_width]

/-- C6: `float_size` and `double_size` are constant across all variants,
returning `U32` and `U64` respectively. -/
theorem float_double_constant (m : CDataModel) :
    m.float_size = Size.U32 ∧ m.double_size = Size.U64 := by
  cases m <;> exact ⟨rfl, rfl⟩

/-- C7: `LP64.long_size` is `U64` (8 bytes) and `LLP64.long_size` is `U32`
(4 bytes): LP64 and LLP64 diverge on the width of C `long`. -/
theorem lp64_llp64_long_divergence :
    CDataModel.LP64.long_size = Size.U64 ∧
    CDataModel.LP64.long_size.bytes = 8 ∧
    CDataModel.LLP64.long_size = Size.U32 ∧
    CDataModel.LLP64.long_size.bytes = 4 ∧
    CDataModel.LP64.long_size ≠ CDataModel.LLP64.long_size := by
  refine ⟨rfl, rfl, rfl, rfl, ?_⟩
  decide

/-- C8: every accessor is deterministic and pure: any two invocations on
equal inputs yield identical results, and every accessor is total on the
closed variant set, always producing some `Size` value. -/
theorem accessors_deterministic_total (m₁ m₂ : CDataModel)
    (h : m₁ = m₂) :
    m₁.sizeTuple = m₂.sizeTuple ∧
    (∀ m : CDataModel, ∃ t, CDataModel.sizeTuple m = t) ∧
    (∀ s : Size, ∃ n, Size.bits s = n ∧ ∃ k, Size.bytes s = k) := by
  subst h
  exact ⟨rfl, fun m => ⟨m.sizeTuple, rfl⟩, fun s => ⟨s.bits, rfl, s.bytes, rfl⟩⟩

/-- C8 witness: the determinism and totality theorem applied at LP64. -/
theorem accessors_deterministic_total_witness :
    CDataModel.sizeTuple CDataModel.LP64 = CDataModel.sizeTuple CDataModel.LP64 ∧
    (∀ m : CDataModel, ∃ t, CDataModel.sizeTuple m = t) ∧
    (∀ s : Size, ∃ n, Size.bits s = n ∧ ∃ k, Size.bytes s = k) :=
  accessors_deterministic_total CDataModel.LP64 CDataModel.LP64 rfl

/-- C9: for every `CDataModel` variant, no accessor ever returns `U8`; every
returned size is at least 16 bits. -/
theorem no_accessor_returns_u8 (m : CDataModel) :
    m.pointer_width ≠ Size.U8 ∧ m.short_size ≠ Size.U8 ∧
    m.int_size ≠ Size.U8 ∧ m.long_size ≠ Size.U8 ∧
    m.long_long_size ≠ Size.U8 ∧ m.float_size ≠ Size.U8 ∧
    m.double_size ≠ Size.U8 ∧
    16 ≤ m.pointer_width.bits ∧ 16 ≤ m.short_size.bits ∧
    16 ≤ m.int_size.bits ∧ 16 ≤ m.long_size.bits ∧
    16 ≤ m.long_long_size.bits ∧ 16 ≤ m.float_size.bits ∧
    16 ≤ m.double_size.bits := by
  cases m <;> decide

/-- C10: for every `CDataModel` variant, neither `int` nor `long` is wider
than a pointer. -/
theorem int_long_not_wider_than_pointer (m : CDataModel) :
    m.int_size.bits ≤ m.pointer_width.bits ∧
    m.long_size.bits ≤ m.pointer_width.bits := by
  cases m <;> decide

end TargetLexicon
